import Mathlib

/-!
Verification of the weather-and-style-assistant repository.

The embedding below models, faithfully to the TypeScript source:
  * the location/intent extractor of `getWeatherResponse` (App.tsx), including
    a small backtracking matcher reproducing the JS regular-expression
    semantics (leftmost match, alternation order, lazy/greedy one-or-more)
    of the four patterns the extractor uses, and the `String.replace`
    chains (global, case-insensitive, substring based, with word-boundary
    anchors only in the final cleanup pass);
  * the image-generation polling loop `pollStatus` (App.tsx), driven by the
    list of successive status responses the status endpoint returns;
  * the static image cache fallback of `fetchUnsplashImage` (App.tsx);
  * the server's `generateOutfitRecommendation`, `generateMockWeather` and
    the `/weather` endpoint handler (server half of OutfitCard.tsx).
-/

namespace WSA

/-! ### JS string primitives on `List Char` -/

/-- The JS `\s` class (WhiteSpace plus LineTerminator productions). -/
def isWsJS (c : Char) : Bool :=
  c = ' ' ∨ c = '\t' ∨ c = '\n' ∨ c.toNat = 11 ∨ c.toNat = 12 ∨ c = '\r' ∨
  c.toNat = 0xa0 ∨ c.toNat = 0x1680 ∨ (0x2000 ≤ c.toNat ∧ c.toNat ≤ 0x200a) ∨
  c.toNat = 0x2028 ∨ c.toNat = 0x2029 ∨ c.toNat = 0x202f ∨ c.toNat = 0x205f ∨
  c.toNat = 0x3000 ∨ c.toNat = 0xfeff

/-- JS regex word character `[A-Za-z0-9_]`, used by `\b`. -/
def isWordChar (c : Char) : Bool :=
  ('a' ≤ c ∧ c ≤ 'z') ∨ ('A' ≤ c ∧ c ≤ 'Z') ∨ ('0' ≤ c ∧ c ≤ '9') ∨ c = '_'

/-- Lowercase a string as JS `toLowerCase` does on the ASCII inputs used here. -/
def toLowerStr (s : String) : String := ⟨s.data.map Char.toLower⟩

/-- Case-insensitive prefix test on char lists. -/
def isPrefCI : List Char → List Char → Bool
  | [], _ => true
  | _ :: _, [] => false
  | a :: as, b :: bs => if a.toLower = b.toLower then isPrefCI as bs else false

/-- Case-sensitive prefix test on char lists. -/
def isPrefCL : List Char → List Char → Bool
  | [], _ => true
  | _ :: _, [] => false
  | a :: as, b :: bs => if a = b then isPrefCL as bs else false

/-- Is `pat` a (contiguous) substring of `s`, as JS `s.includes(pat)`. -/
def isSubCL (pat : List Char) : List Char → Bool
  | [] => isPrefCL pat []
  | c :: rest => isPrefCL pat (c :: rest) || isSubCL pat rest

/-- JS `s.includes(sub)`. -/
def jsIncludes (s sub : String) : Bool := isSubCL sub.data s.data

/-- JS `trim`: drop leading and trailing `\s` characters. -/
def trimCL (l : List Char) : List Char :=
  ((l.dropWhile isWsJS).reverse.dropWhile isWsJS).reverse

/-- JS `trim` on strings. -/
def trimStr (s : String) : String := ⟨trimCL s.data⟩

/-- One pass of JS `s.replace(/pat/gi, '')` for a literal pattern `pat`:
scan left to right, delete each (case-insensitive) occurrence, continue
after the deleted text (no rescan of the produced string). The `fuel`
argument only makes the recursion structural; at `l.length` it is never
exhausted, since every step consumes at least one character. -/
def repAllAux (pat : List Char) : Nat → List Char → List Char
  | _, [] => []
  | 0, l => l
  | fuel + 1, c :: cs =>
    if pat ≠ [] ∧ isPrefCI pat (c :: cs) = true then
      repAllAux pat fuel ((c :: cs).drop pat.length)
    else
      c :: repAllAux pat fuel cs

/-- JS `s.replace(/pat/gi, '')` for a literal pattern, on strings. -/
def repAll (s pat : String) : String := ⟨repAllAux pat.data s.data.length s.data⟩

/-- JS `s.replace(/\bpat\b/gi, '')`: like `repAll` but an occurrence is
deleted only when word boundaries hold on both sides in the original
string (`prev` is the character before the current position). -/
def repWordAux (pat : List Char) : Nat → Option Char → List Char → List Char
  | _, _, [] => []
  | 0, _, l => l
  | fuel + 1, prev, c :: cs =>
    if pat ≠ [] ∧ isPrefCI pat (c :: cs) = true ∧
        (match prev with | none => true | some p => !isWordChar p) = true ∧
        (match (c :: cs).drop pat.length with
         | [] => true
         | d :: _ => !isWordChar d) = true then
      repWordAux pat fuel ((c :: cs).take pat.length).getLast? ((c :: cs).drop pat.length)
    else
      c :: repWordAux pat fuel (some c) cs

/-- JS `s.replace(/\bpat\b/gi, '')` on strings. -/
def repWord (s pat : String) : String := ⟨repWordAux pat.data s.data.length none s.data⟩

/-! ### A small backtracking matcher for the extractor's regex patterns

The four patterns in `getWeatherResponse` only ever apply `+` / `+?` / `*`
to single-character classes, so a token-list matcher with explicit
backtracking reproduces the JS engine exactly: leftmost starting match,
alternatives in written order, lazy `+?` preferring fewer characters,
greedy `+` / `*` preferring more. -/

/-- The character classes appearing in the extractor's patterns. -/
inductive CC where
  | dot
  | ws
  | lowerWs
deriving Repr, DecidableEq

/-- Evaluate a class at a character, with the `i` flag's case folding. -/
def evalCC : CC → Char → Bool
  | .dot, c => !(c = '\n' ∨ c = '\r' ∨ c.toNat = 0x2028 ∨ c.toNat = 0x2029)
  | .ws, c => isWsJS c
  | .lowerWs, c => ('a' ≤ c.toLower ∧ c.toLower ≤ 'z') ∨ isWsJS c

/-- Pattern tokens: literals (case-insensitive), end anchor `$`,
alternation, greedy `+` and `*`, and capturing lazy/greedy `+`. -/
inductive Tok where
  | lit (s : List Char)
  | eos
  | alts (xs : List (List Tok))
  | plusG (c : CC)
  | starG (c : CC)
  | plusLCap (i : Nat) (c : CC) (acc : List Char)
  | plusGCap (i : Nat) (c : CC) (acc : List Char)
deriving Repr

/-- Strip a case-insensitive literal prefix. -/
def stripPrefCI : List Char → List Char → Option (List Char)
  | [], s => some s
  | _ :: _, [] => none
  | a :: as, b :: bs => if a.toLower = b.toLower then stripPrefCI as bs else none

/-- Match a token list against a prefix of the input, returning the
captures of the preferred (JS-order) successful alternative. Fuel bounds
the backtracking depth; `tryAt` below supplies an ample amount. The two
capturing tokens carry their accumulated span, so one structurally
recursive function covers alternation and the lazy/greedy loops. -/
def mt : Nat → List Tok → List Char → Option (List (Nat × List Char))
  | 0, _, _ => none
  | fuel + 1, toks, input =>
    match toks with
    | [] => some []
    | .lit s :: rest =>
      match stripPrefCI s input with
      | some r => mt fuel rest r
      | none => none
    | .eos :: rest =>
      match input with
      | [] => mt fuel rest []
      | _ :: _ => none
    | .alts [] :: _ => none
    | .alts (x :: xs) :: rest =>
      match mt fuel (x ++ rest) input with
      | some caps => some caps
      | none => mt fuel (.alts xs :: rest) input
    | .plusG c :: rest =>
      match input with
      | [] => none
      | d :: ds =>
        if evalCC c d then
          match mt fuel (.plusG c :: rest) ds with
          | some caps => some caps
          | none => mt fuel rest ds
        else none
    | .starG c :: rest =>
      match input with
      | [] => mt fuel rest []
      | d :: ds =>
        if evalCC c d then
          match mt fuel (.starG c :: rest) ds with
          | some caps => some caps
          | none => mt fuel rest input
        else mt fuel rest input
    | .plusLCap i c acc :: rest =>
      match input with
      | [] => none
      | d :: ds =>
        if evalCC c d then
          match mt fuel rest ds with
          | some caps => some ((i, acc ++ [d]) :: caps)
          | none => mt fuel (.plusLCap i c (acc ++ [d]) :: rest) ds
        else none
    | .plusGCap i c acc :: rest =>
      match input with
      | [] => none
      | d :: ds =>
        if evalCC c d then
          match mt fuel (.plusGCap i c (acc ++ [d]) :: rest) ds with
          | some caps => some caps
          | none =>
            match mt fuel rest ds with
            | some caps => some ((i, acc ++ [d]) :: caps)
            | none => none
        else none

/-- Fuel ample for the small patterns here: the matcher's call depth is
bounded by (token size) * (input length) and token sizes are below 60. -/
def tryAt (toks : List Tok) (input : List Char) : Option (List (Nat × List Char)) :=
  mt (200 * (input.length + 5)) toks input

/-- JS `String.match` for an unanchored pattern: try each start position
left to right. -/
def searchAux (toks : List Tok) : List Char → Option (List (Nat × List Char))
  | [] => tryAt toks []
  | c :: cs =>
    match tryAt toks (c :: cs) with
    | some caps => some caps
    | none => searchAux toks cs

/-- Run a pattern against a string, returning capture groups. -/
def searchP (toks : List Tok) (s : String) : Option (List (Nat × List Char)) :=
  searchAux toks s.data

/-- Look up capture group `i`. -/
def capOf (caps : List (Nat × List Char)) (i : Nat) : Option String :=
  (caps.find? (fun p => p.1 = i)).map (fun p => ⟨p.2⟩)

/-! ### The extractor's four patterns (App.tsx lines 92-96 and 222-224) -/

/-- Shorthand for `\s+`. -/
def wsP : Tok := .plusG .ws

/-- Pattern `/compare\s+(.+?)\s+(?:and|vs|versus)\s+(.+)/i`. -/
def compareP1 : List Tok :=
  [.lit "compare".data, wsP, .plusLCap 1 .dot [], wsP,
   .alts [[.lit "and".data], [.lit "vs".data], [.lit "versus".data]],
   wsP, .plusGCap 2 .dot []]

/-- Pattern `/(.+?)\s+vs\s+(.+)/i`. -/
def compareP2 : List Tok :=
  [.plusLCap 1 .dot [], wsP, .lit "vs".data, wsP, .plusGCap 2 .dot []]

/-- Pattern `/(.+?)\s+versus\s+(.+)/i`. -/
def compareP3 : List Tok :=
  [.plusLCap 1 .dot [], wsP, .lit "versus".data, wsP, .plusGCap 2 .dot []]

/-- The terminator alternation of the preposition pattern:
`(?:\s+today|\s+tomorrow|\s+tonight|\s+right now|\s+currently|\s*\?|$)`. -/
def timeTerm : List (List Tok) :=
  [[wsP, .lit "today".data], [wsP, .lit "tomorrow".data], [wsP, .lit "tonight".data],
   [wsP, .lit "right now".data], [wsP, .lit "currently".data],
   [.starG .ws, .lit "?".data], [.eos]]

/-- Pattern `/(?:in|for|at)\s+([a-z\s]+?)(?:\s+today|...|\s*\?|$)/i`. -/
def prepositionP : List Tok :=
  [.alts [[.lit "in".data], [.lit "for".data], [.lit "at".data]],
   wsP, .plusLCap 1 .lowerWs [], .alts timeTerm]

/-! ### The intent extractor (`getWeatherResponse`, App.tsx lines 88-280) -/

/-- Both capture groups of a comparison pattern, or `none`. -/
def match2 (p : List Tok) (msg : String) : Option (String × String) :=
  match searchP p msg with
  | some caps =>
    match capOf caps 1, capOf caps 2 with
    | some a, some b => some (a, b)
    | _, _ => none
  | none => none

/-- One iteration of the comparison-pattern loop: a match is accepted only
when both captures are truthy (non-empty), as `match && match[1] && match[2]`. -/
def compAt (p : List Tok) (msg : String) : Option (String × String) :=
  match match2 p msg with
  | some (a, b) => if a ≠ "" ∧ b ≠ "" then some (a, b) else none
  | none => none

/-- The comparison-pattern loop, in the source's pattern order. -/
def firstComparisonMatch (msg : String) : Option (String × String) :=
  match compAt compareP1 msg with
  | some r => some r
  | none =>
    match compAt compareP2 msg with
    | some r => some r
    | none => compAt compareP3 msg

/-- Cleaning of `match[1]` (App.tsx lines 102-109): trim, then remove all
case-insensitive occurrences of `compare`, `weather in`, `weather for`,
`weather`, `the`, `?`, then trim. -/
def cleanCity1 (s : String) : String :=
  trimStr (repAll (repAll (repAll (repAll (repAll (repAll (trimStr s)
    "compare") "weather in") "weather for") "weather") "the") "?")

/-- Cleaning of `match[2]` (App.tsx lines 111-117): as `cleanCity1` but
without the `compare` removal. -/
def cleanCity2 (s : String) : String :=
  trimStr (repAll (repAll (repAll (repAll (repAll (trimStr s)
    "weather in") "weather for") "weather") "the") "?")

/-- The literal `"what's"` (apostrophe written by code point). -/
def whatsPat : String := ⟨['w', 'h', 'a', 't', Char.ofNat 39, 's']⟩

/-- The candidate location from the preposition pattern (App.tsx lines
226-232): the trimmed first capture, or `""` when nothing matched. -/
def prepositionCandidate (msg : String) : String :=
  match searchP prepositionP msg with
  | some caps =>
    match capOf caps 1 with
    | some g => if g ≠ "" then trimStr g else ""
    | none => ""
  | none => ""

/-- The filler-strip fallback (App.tsx lines 236-262): lowercase the whole
message and remove, in order, `what's`, `what is`, `the`, `weather`,
`forecast`, `wear`, `should i`, the time words, `?`; then trim. -/
def fillerStripCandidate (msg : String) : String :=
  trimStr (repAll (repAll (repAll (repAll (repAll (repAll (repAll (repAll
    (repAll (repAll (repAll (repAll (repAll (repAll (repAll (repAll
      (toLowerStr msg)
      whatsPat) "what is") "the") "weather") "forecast") "wear") "should i")
      "today") "tomorrow") "tonight") "this week") "next week") "this month")
      "right now") "currently") "?")

/-- Candidate before the default: preposition capture, else filler strip. -/
def strippedCandidate (msg : String) : String :=
  let loc := prepositionCandidate msg
  if loc ≠ "" then loc else fillerStripCandidate msg

/-- `if (!location) location = "New York"` (App.tsx lines 265-267). -/
def withFallback (s : String) : String :=
  if s = "" then "New York" else s

/-- Final cleanup (App.tsx lines 270-280): remove the time words as
whole-word, case-insensitive matches, then trim. -/
def finalCleanup (s : String) : String :=
  trimStr (repWord (repWord (repWord (repWord (repWord (repWord (repWord
    (repWord (repWord s
    "today") "tomorrow") "tonight") "right now") "currently") "this week")
    "next week") "this month") "forecast")

/-- The whole single-city location extraction. -/
def extractSingleCity (msg : String) : String :=
  finalCleanup (withFallback (strippedCandidate msg))

/-- The intent the extractor resolves a user message to. -/
inductive Intent where
  | compare (city1 city2 : String)
  | singleCity (city : String)
deriving Repr, DecidableEq

/-- The location/intent extractor of `getWeatherResponse`. -/
def extractIntent (msg : String) : Intent :=
  match firstComparisonMatch msg with
  | some (g1, g2) => .compare (cleanCity1 g1) (cleanCity2 g2)
  | none => .singleCity (extractSingleCity msg)

/-! ### Outfit recommendation (`generateOutfitRecommendation`, server file) -/

/-- An outfit item: display name plus photo search query. -/
structure OutfitItem where
  name : String
  query : String
deriving Repr, DecidableEq

/-- A style variation: label plus ordered item list. -/
structure OutfitVariation where
  style : String
  items : List OutfitItem
deriving Repr, DecidableEq

/-- The recommendation returned by the rule table. -/
structure OutfitRecommendation where
  summary : String
  note : String
  variations : List OutfitVariation
deriving Repr, DecidableEq

/-- The fields of the (parsed) weather object that
`generateOutfitRecommendation` reads. -/
structure WeatherPayload where
  temp : Rat
  feels_like : Rat
  humidity : Rat
  windSpeed : Rat
  condMain : String
  description : String
deriving Repr, DecidableEq

/-- JS `Math.round`: round half toward positive infinity. -/
def jsRound (q : Rat) : Int := (q + 1/2).floor

/-- The temperature-band style table (server file lines 509-695), before
condition post-processing. -/
def baseVariations (temp : Rat) : List OutfitVariation :=
  if temp < 0 then
    [⟨"Winter Essential",
      [⟨"Heavy Puffer Coat", "black puffer jacket down coat"⟩,
       ⟨"Thermal Base Layer", "merino wool thermal shirt"⟩,
       ⟨"Insulated Boots", "snow boots waterproof"⟩,
       ⟨"Wool Scarf & Gloves", "wool scarf knit gloves set"⟩]⟩,
     ⟨"Urban Winter",
      [⟨"Winter Jacket", "navy blue winter parka"⟩,
       ⟨"Warm Sweater", "cable knit sweater beige"⟩,
       ⟨"Snow Boots", "leather winter boots brown"⟩,
       ⟨"Beanie & Mittens", "beanie hat winter mittens"⟩]⟩,
     ⟨"Classic Cold Weather",
      [⟨"Long Winter Coat", "long wool coat gray"⟩,
       ⟨"Layered Clothing", "turtleneck sweater black"⟩,
       ⟨"Leather Boots", "leather ankle boots black"⟩,
       ⟨"Knit Scarf Set", "cashmere scarf winter"⟩]⟩]
  else if temp < 10 then
    [⟨"Casual Cool",
      [⟨"Denim Jacket", "blue denim jacket classic"⟩,
       ⟨"Knit Sweater", "cream knit sweater cozy"⟩,
       ⟨"Ankle Boots", "suede ankle boots tan"⟩,
       ⟨"Warm Scarf", "plaid scarf wool"⟩]⟩,
     ⟨"Modern Edge",
      [⟨"Bomber Jacket", "black bomber jacket leather"⟩,
       ⟨"Turtleneck", "gray turtleneck sweater"⟩,
       ⟨"Chelsea Boots", "black chelsea boots leather"⟩,
       ⟨"Light Scarf", "minimalist scarf black"⟩]⟩,
     ⟨"Timeless Chic",
      [⟨"Wool Coat", "tan beige wool overcoat jacket"⟩,
       ⟨"Pullover Sweater", "burgundy knit pullover sweater crewneck"⟩,
       ⟨"Leather Boots", "brown leather boots vintage"⟩,
       ⟨"Knit Scarf", "chunky knit scarf beige"⟩]⟩]
  else if temp < 18 then
    [⟨"Smart Casual",
      [⟨"Light Jacket", "khaki field jacket spring"⟩,
       ⟨"Long Sleeve Shirt", "white oxford shirt cotton"⟩,
       ⟨"Sneakers", "white leather sneakers clean"⟩]⟩,
     ⟨"Relaxed Comfort",
      [⟨"Cardigan", "navy cardigan sweater knitwear menswear"⟩,
       ⟨"Polo Shirt", "striped polo shirt casual"⟩,
       ⟨"Casual Loafers", "brown suede loafers"⟩]⟩,
     ⟨"Active Ready",
      [⟨"Windbreaker", "windbreaker jacket sports apparel clothing"⟩,
       ⟨"Henley Shirt", "gray henley shirt long sleeve"⟩,
       ⟨"Running Shoes", "running shoes athletic colorful"⟩]⟩]
  else if temp < 25 then
    [⟨"Everyday Casual",
      [⟨"Cotton T-Shirt", "white cotton tshirt mens fashion"⟩,
       ⟨"Light Cardigan", "cardigan sweater mens fashion knitwear"⟩,
       ⟨"Sneakers", "white canvas sneakers footwear"⟩]⟩,
     ⟨"Business Casual",
      [⟨"Polo Shirt", "navy polo shirt menswear"⟩,
       ⟨"Chinos", "beige chino pants menswear"⟩,
       ⟨"Oxford Shoes", "brown leather oxford shoes footwear"⟩]⟩,
     ⟨"Streetwear Vibe",
      [⟨"Graphic Tee", "black tshirt streetwear fashion"⟩,
       ⟨"Hoodie", "grey hoodie streetwear"⟩,
       ⟨"White Sneakers", "white sneakers street fashion"⟩]⟩]
  else if temp < 30 then
    [⟨"Summer Breeze",
      [⟨"Light Cotton Tee", "blue cotton tshirt mens summer fashion"⟩,
       ⟨"Shorts", "navy shorts mens casual wear"⟩,
       ⟨"Slide Sandals", "leather sandals mens footwear"⟩,
       ⟨"Sunglasses", "aviator sunglasses accessory"⟩]⟩,
     ⟨"Beach Ready",
      [⟨"Tank Top", "white tank top mens athletic wear"⟩,
       ⟨"Denim Shorts", "denim shorts mens casual"⟩,
       ⟨"Flip Flops", "flip flops mens beach footwear"⟩,
       ⟨"Aviator Sunglasses", "sunglasses mens accessory"⟩]⟩,
     ⟨"Resort Casual",
      [⟨"Linen Shirt", "beige linen shirt mens summer wear"⟩,
       ⟨"Light Pants", "linen pants mens white"⟩,
       ⟨"Canvas Sneakers", "canvas sneakers white footwear"⟩,
       ⟨"Shades", "sunglasses mens fashion accessory"⟩]⟩]
  else
    [⟨"Heat Wave",
      [⟨"Breathable Tank", "mesh tank top athletic black"⟩,
       ⟨"Athletic Shorts", "performance shorts athletic gray"⟩,
       ⟨"Sport Sandals", "sport sandals outdoor black"⟩,
       ⟨"Wide Brim Hat", "straw sun hat wide brim"⟩]⟩,
     ⟨"Tropical Vibes",
      [⟨"Light Tank Top", "colorful tank top tropical print"⟩,
       ⟨"Swim Shorts", "swim trunks tropical pattern"⟩,
       ⟨"Beach Sandals", "flip flops beach colorful"⟩,
       ⟨"Baseball Cap", "baseball cap summer white"⟩]⟩,
     ⟨"Desert Cool",
      [⟨"Moisture-Wicking Top", "technical tshirt outdoor beige"⟩,
       ⟨"Light Clothing", "cargo shorts outdoor khaki"⟩,
       ⟨"Open Sandals", "hiking sandals outdoor brown"⟩,
       ⟨"Bucket Hat", "bucket hat outdoor navy"⟩]⟩]

/-- The band-specific base note (same if-chain as `baseVariations`). -/
def baseNote (temp : Rat) : String :=
  if temp < 0 then "Freezing temperatures require heavy insulation and layering."
  else if temp < 10 then "Cold weather calls for warm layers and comfortable outerwear."
  else if temp < 18 then "Cool and pleasant - light layers work best."
  else if temp < 25 then "Comfortable temperature - perfect for light, casual wear."
  else if temp < 30 then "Warm weather - light, breathable clothing recommended."
  else "Very hot - stay cool with minimal, moisture-wicking fabrics."

/-- The item appended to every variation when rain or drizzle is expected. -/
def umbrellaItem : OutfitItem := ⟨"Umbrella", "umbrella rain"⟩

/-- The item appended to every variation for snow. -/
def snowGearItem : OutfitItem := ⟨"Snow Gear", "snow gear"⟩

/-- Condition post-processing of the variations (server file lines
697-712): rain/drizzle appends the umbrella item to every variation, then
snow appends the snow-gear item to every variation. -/
def condAdjust (condition : String) (vars : List OutfitVariation) : List OutfitVariation :=
  let vars1 :=
    if jsIncludes condition "rain" || jsIncludes condition "drizzle" then
      vars.map (fun v => { v with items := v.items ++ [umbrellaItem] })
    else vars
  if jsIncludes condition "snow" then
    vars1.map (fun v => { v with items := v.items ++ [snowGearItem] })
  else vars1

/-- The outfit rule table (server file lines 497-729). -/
def generateOutfitRecommendation (w : WeatherPayload) : OutfitRecommendation :=
  let temp := w.temp
  let condition := toLowerStr w.condMain
  let note0 := baseNote temp
  let note1 := note0 ++
    (if jsIncludes condition "rain" || jsIncludes condition "drizzle" then
      "☔ Rain expected! " else "")
  let note2 := note1 ++ (if jsIncludes condition "snow" then "❄️ Snowy weather! " else "")
  let note3 := note2 ++ (if w.windSpeed > 8 then "💨 Windy conditions! " else "")
  let note4 := note3 ++
    (if w.humidity > 80 ∧ temp > 20 then
      "🌡️ High humidity - choose breathable fabrics! " else "")
  { summary := "For " ++ toString (jsRound temp) ++ "°C (feels like " ++
      toString (jsRound w.feels_like) ++ "°C) with " ++ w.description
    note := note4
    variations := condAdjust condition (baseVariations temp) }

/-- A concrete weather input whose condition text contains both rain and
snow, with high wind and humidity (used by the C7 witness). -/
def payloadC7 : WeatherPayload :=
  { temp := 21, feels_like := 22, humidity := 85, windSpeed := 9,
    condMain := "Snowrain", description := "sleet" }



/-! ### Mock weather and the weather endpoint (server file lines 283-494) -/

/-- A city climate profile from the demo-mode table. -/
structure CityProfile where
  temp : Rat
  feels : Rat
  humidity : Rat
  wind : Rat
  condition : String
  desc : String
  country : String
deriving Repr, DecidableEq

/-- The demo-mode city table, in source order (server file lines 383-442).
The numeric literals are the source's decimal literals read exactly. -/
def cityProfiles : List (String × CityProfile) :=
  [("london", ⟨14, 12, 72, (4.2 : Rat), "Clouds", "broken clouds", "GB"⟩),
  ("paris", ⟨16, 15, 68, (3.8 : Rat), "Clear", "clear sky", "FR"⟩),
  ("berlin", ⟨13, 11, 70, (4.5 : Rat), "Clouds", "overcast clouds", "DE"⟩),
  ("amsterdam", ⟨12, 10, 78, (5.2 : Rat), "Rain", "light rain", "NL"⟩),
  ("rome", ⟨21, 20, 62, (2.8 : Rat), "Clear", "clear sky", "IT"⟩),
  ("madrid", ⟨19, 18, 55, (3.2 : Rat), "Clear", "few clouds", "ES"⟩),
  ("barcelona", ⟨20, 19, 65, (3.5 : Rat), "Clear", "clear sky", "ES"⟩),
  ("moscow", ⟨(-2 : Rat), (-6 : Rat), 85, (5.5 : Rat), "Snow", "light snow", "RU"⟩),
  ("oslo", ⟨3, (-1 : Rat), 75, (6.0 : Rat), "Clouds", "overcast clouds", "NO"⟩),
  ("stockholm", ⟨5, 2, 72, (4.8 : Rat), "Clouds", "scattered clouds", "SE"⟩),
  ("helsinki", ⟨1, (-3 : Rat), 80, (5.2 : Rat), "Snow", "light snow", "FI"⟩),
  ("reykjavik", ⟨4, 0, 82, (7.5 : Rat), "Rain", "light rain", "IS"⟩),
  ("tokyo", ⟨22, 23, 68, (3.5 : Rat), "Clear", "clear sky", "JP"⟩),
  ("beijing", ⟨18, 17, 45, (4.2 : Rat), "Clear", "few clouds", "CN"⟩),
  ("shanghai", ⟨24, 25, 75, (3.8 : Rat), "Clouds", "scattered clouds", "CN"⟩),
  ("singapore", ⟨31, 36, 85, (2.5 : Rat), "Rain", "light rain", "SG"⟩),
  ("bangkok", ⟨33, 38, 80, (2.2 : Rat), "Clear", "clear sky", "TH"⟩),
  ("mumbai", ⟨32, 37, 82, (3.8 : Rat), "Clouds", "scattered clouds", "IN"⟩),
  ("delhi", ⟨28, 30, 60, (4.0 : Rat), "Clear", "haze", "IN"⟩),
  ("seoul", ⟨17, 16, 65, (3.5 : Rat), "Clear", "clear sky", "KR"⟩),
  ("hong kong", ⟨27, 29, 78, (3.2 : Rat), "Clouds", "few clouds", "HK"⟩),
  ("dubai", ⟨38, 42, 55, (4.5 : Rat), "Clear", "clear sky", "AE"⟩),
  ("riyadh", ⟨35, 37, 25, (5.0 : Rat), "Clear", "clear sky", "SA"⟩),
  ("cairo", ⟨30, 32, 40, (4.2 : Rat), "Clear", "clear sky", "EG"⟩),
  ("new york", ⟨18, 17, 65, (4.8 : Rat), "Clouds", "scattered clouds", "US"⟩),
  ("los angeles", ⟨24, 23, 58, (3.2 : Rat), "Clear", "clear sky", "US"⟩),
  ("chicago", ⟨15, 13, 70, (5.5 : Rat), "Clouds", "broken clouds", "US"⟩),
  ("miami", ⟨30, 34, 78, (4.0 : Rat), "Clear", "few clouds", "US"⟩),
  ("san francisco", ⟨17, 16, 75, (5.2 : Rat), "Clouds", "fog", "US"⟩),
  ("seattle", ⟨14, 13, 80, (3.8 : Rat), "Rain", "light rain", "US"⟩),
  ("toronto", ⟨16, 14, 68, (4.5 : Rat), "Clouds", "overcast clouds", "CA"⟩),
  ("vancouver", ⟨15, 14, 78, (3.5 : Rat), "Rain", "moderate rain", "CA"⟩),
  ("calgary", ⟨8, 4, 55, (5.8 : Rat), "Clouds", "scattered clouds", "CA"⟩),
  ("mexico city", ⟨22, 21, 55, (2.8 : Rat), "Clear", "clear sky", "MX"⟩),
  ("buenos aires", ⟨20, 19, 72, (4.2 : Rat), "Clear", "clear sky", "AR"⟩),
  ("rio de janeiro", ⟨28, 30, 75, (3.5 : Rat), "Clear", "few clouds", "BR"⟩),
  ("sao paulo", ⟨23, 22, 68, (3.0 : Rat), "Clouds", "scattered clouds", "BR"⟩),
  ("lima", ⟨21, 20, 78, (3.8 : Rat), "Clouds", "overcast clouds", "PE"⟩),
  ("sydney", ⟨22, 21, 65, (4.5 : Rat), "Clear", "clear sky", "AU"⟩),
  ("melbourne", ⟨18, 17, 68, (5.0 : Rat), "Clouds", "scattered clouds", "AU"⟩),
  ("auckland", ⟨17, 16, 75, (4.8 : Rat), "Clouds", "broken clouds", "NZ"⟩),
  ("cape town", ⟨19, 18, 70, (5.5 : Rat), "Clear", "clear sky", "ZA"⟩),
  ("nairobi", ⟨24, 23, 62, (3.5 : Rat), "Clear", "few clouds", "KE"⟩)]

/-- The four `Math.random()`-derived jitters added by `generateMockWeather`
(source ranges: temp in [-3,3), humidity in [-15,15), wind in [-2,2),
feels-like in [-4,4)); the theorems quantify over all rationals, which
subsumes those ranges. -/
structure Jitter where
  tempVar : Rat
  feelsVar : Rat
  humidityVar : Rat
  windVar : Rat
deriving Repr, DecidableEq

/-- The OpenWeatherMap-shaped weather object: the fields of the upstream
response the endpoint reads, which `generateMockWeather` also produces. -/
structure OwmData where
  name : String
  country : String
  temp : Rat
  feels_like : Rat
  humidity : Rat
  condMain : String
  desc : String
  windSpeed : Rat
deriving Repr, DecidableEq

/-- First profile whose city name the lowercased location contains. -/
def findProfile (locLower : String) : List (String × CityProfile) → Option CityProfile
  | [] => none
  | (city, p) :: rest =>
    if jsIncludes locLower city = true then some p else findProfile locLower rest

/-- Seed: the sum of the location's character codes (ASCII here, where
JS UTF-16 units equal code points). -/
def sumCharCodes (s : String) : Nat := s.data.foldl (fun a c => a + c.toNat) 0

/-- The hash-seeded profile for cities not in the table. -/
def hashProfile (location : String) : CityProfile :=
  let seed := sumCharCodes location
  let tempBase : Rat := 15 + ((seed % 20 : Nat) : Rat)
  let variation : Rat := ((seed % 10 : Nat) : Rat) - 5
  { temp := tempBase + variation
    feels := tempBase + variation + (((seed % 6 : Nat) : Rat) - 3)
    humidity := 50 + ((seed % 40 : Nat) : Rat)
    wind := 2 + ((seed % 5 : Nat) : Rat)
    condition := ["Clear", "Clouds", "Rain"].getD (seed % 3) ""
    desc := ["clear sky", "scattered clouds", "light rain"].getD (seed % 3) ""
    country := "XX" }

/-- JS `location.charAt(0).toUpperCase() + location.slice(1)`. -/
def capitalizeFirst (s : String) : String :=
  match s.data with
  | [] => ""
  | c :: cs => ⟨c.toUpper :: cs⟩

/-- `generateMockWeather` (server file lines 379-494): pick the profile,
add the jitters, clamp humidity to [30, 100] and wind to at least 0.5. -/
def generateMockWeather (location : String) (j : Jitter) : OwmData :=
  let locationLower := toLowerStr location
  let profile :=
    match findProfile locationLower cityProfiles with
    | some p => p
    | none => hashProfile location
  { name := capitalizeFirst location
    country := profile.country
    temp := profile.temp + j.tempVar
    feels_like := profile.feels + j.feelsVar
    humidity := max 30 (min 100 (profile.humidity + j.humidityVar))
    condMain := profile.condition
    desc := profile.desc
    windSpeed := max (1/2 : Rat) (profile.wind + j.windVar) }

/-- The upstream weather call's outcome as the endpoint observes it. -/
inductive Upstream where
  | ok (data : OwmData)
  | httpErr (status : Nat) (message : String)
  | netFail
deriving Repr, DecidableEq

/-- The `weather` object of a successful endpoint response. -/
structure WeatherOut where
  location : String
  country : String
  temperature : Int
  feelsLike : Int
  condition : String
  description : String
  humidity : Rat
  windSpeed : Rat
deriving Repr, DecidableEq

/-- Serialize a weather object into the response shape (temperatures are
`Math.round`ed). -/
def weatherOutOf (d : OwmData) : WeatherOut :=
  { location := d.name, country := d.country,
    temperature := jsRound d.temp, feelsLike := jsRound d.feels_like,
    condition := d.condMain, description := d.desc,
    humidity := d.humidity, windSpeed := d.windSpeed }

/-- The weather fields handed to `generateOutfitRecommendation`. -/
def payloadOf (d : OwmData) : WeatherPayload :=
  { temp := d.temp, feels_like := d.feels_like, humidity := d.humidity,
    windSpeed := d.windSpeed, condMain := d.condMain, description := d.desc }

/-- The endpoint's response: an error status with message, or a success
body carrying weather, outfit, the demoMode flag and an optional reason. -/
inductive WeatherResp where
  | err (status : Nat) (message : String)
  | ok (weather : WeatherOut) (outfit : OutfitRecommendation)
       (demoMode : Bool) (demoReason : Option String)
deriving Repr, DecidableEq

/-- The demo reason when no credential is configured. -/
def noKeyReason : String := "No API key found in environment variables"

/-- The demo reason after an unauthorized or failed upstream call. -/
def auth401Reason : String :=
  "API key exists but returned 401 (likely not activated yet - takes 1-2 hours for new OpenWeatherMap accounts)"

/-- The `/weather` endpoint handler (server file lines 283-376), with the
request's `location` (`none` for absent), the configured credential, the
upstream call's outcome, and the mock jitters as inputs. A missing or
empty location is JS-falsy and yields 400; with no key, a 401, or a
network failure the handler degrades to mock data; any other upstream
error status is forwarded as an error response. -/
def weatherEndpoint (location : Option String) (apiKey : Option String)
    (upstream : Upstream) (j : Jitter) : WeatherResp :=
  match location with
  | none => .err 400 "Location is required"
  | some loc =>
    if loc = "" then .err 400 "Location is required"
    else
      match apiKey with
      | none =>
        let mock := generateMockWeather loc j
        .ok (weatherOutOf mock) (generateOutfitRecommendation (payloadOf mock))
          true (some noKeyReason)
      | some _ =>
        match upstream with
        | .ok d =>
          .ok (weatherOutOf d) (generateOutfitRecommendation (payloadOf d)) false none
        | .httpErr status msg =>
          if status = 401 then
            let mock := generateMockWeather loc j
            .ok (weatherOutOf mock) (generateOutfitRecommendation (payloadOf mock))
              true (some auth401Reason)
          else
            .err status (if msg = "" then "Failed to fetch weather data" else msg)
        | .netFail =>
          let mock := generateMockWeather loc j
          .ok (weatherOutOf mock) (generateOutfitRecommendation (payloadOf mock))
            true (some auth401Reason)

/-- Is the response an error response. -/
def WeatherResp.isErr : WeatherResp → Bool
  | .err _ _ => true
  | .ok _ _ _ _ => false

/-- The demoMode flag of a success response. -/
def WeatherResp.demoFlag : WeatherResp → Option Bool
  | .err _ _ => none
  | .ok _ _ d _ => some d

/-- The demoReason of a success response. -/
def WeatherResp.reason : WeatherResp → Option String
  | .err _ _ => none
  | .ok _ _ _ r => r

/-- A zero jitter (used by witnesses). -/
def jitter0 : Jitter := ⟨0, 0, 0, 0⟩

/-- A concrete upstream payload (used by witnesses). -/
def owm0 : OwmData :=
  ⟨"Paris", "FR", 18, 17, 65, "Clouds", "scattered clouds", 4⟩


/-! ### The image-generation polling loop (`pollStatus`, App.tsx 614-670) -/

/-- One response of the status endpoint as the poll loop reads it. -/
structure StatusResponse where
  status : String
  imageUrl : Option String
  error : Option String
deriving Repr, DecidableEq

/-- JS truthiness of an optional string field (absent or empty is falsy). -/
def jsTruthyOpt : Option String → Bool
  | none => false
  | some u => !(u == "")

/-- The state the generation job ends in. -/
inductive PollOutcome where
  | success (url : String)
  | failed (message : String)
  | timedOut
  | starved
deriving Repr, DecidableEq

/-- The fixed delay before each re-poll (`setTimeout(..., 5000)`), ms. -/
def pollDelayMs : Nat := 5000

/-- The polling loop, driven by the list of status responses the endpoint
returns on successive polls. Returns the outcome, the number of polls
performed, and the total delay waited in ms. A poll whose status is
`success` with a truthy imageUrl succeeds; `create_failed` or
`generation_failed` throws the response's error (or the generic message,
via JS `||`); any other response - `generating`, but also `unknown` or
`success` without a truthy url - waits the fixed delay and polls again,
until the attempt counter reaches `maxAttempts`, where the loop throws
the timeout error. `starved` marks the response list running out, which
no theorem's input reaches. -/
def pollLoop (maxAttempts : Nat) : Nat → List StatusResponse → PollOutcome × Nat × Nat
  | attempts, responses =>
    if maxAttempts ≤ attempts then (.timedOut, 0, 0)
    else
      match responses with
      | [] => (.starved, 0, 0)
      | r :: rest =>
        if r.status = "success" ∧ jsTruthyOpt r.imageUrl = true then
          (.success (r.imageUrl.getD ""), 1, 0)
        else if r.status = "create_failed" ∨ r.status = "generation_failed" then
          (.failed (match r.error with
                    | some e => if e = "" then "Generation failed" else e
                    | none => "Generation failed"), 1, 0)
        else
          let p := pollLoop maxAttempts (attempts + 1) rest
          (p.1, p.2.1 + 1, p.2.2 + pollDelayMs)



/-! ### The image cache fallback (`fetchUnsplashImage`, App.tsx 475-536) -/

/-- The static image cache of App.tsx (lines 398-473), in source order. -/
def imageCache : List (String × String) :=
  [("black puffer jacket down coat",
    "https://images.unsplash.com/photo-1521681867701-9962f648c1b6?crop=entropy&cs=tinysrgb&fit=max&fm=jpg&ixid=M3w3Nzg4Nzd8MHwxfHNlYXJjaHwxfHxibGFjayUyMHB1ZmZlciUyMGphY2tldHxlbnwxfHx8fDE3NjI4ODg5NjZ8MA&ixlib=rb-4.1.0&q=80&w=1080"),
   ("merino wool thermal shirt",
    "https://images.unsplash.com/photo-1673168869484-dce7ec2d0499?crop=entropy&cs=tinysrgb&fit=max&fm=jpg&ixid=M3w3Nzg4Nzd8MHwxfHNlYXJjaHwxfHxtZXJpbm8lMjB3b29sJTIwdGhlcm1hbHxlbnwxfHx8fDE3NjI4ODg5NjZ8MA&ixlib=rb-4.1.0&q=80&w=1080"),
   ("snow boots waterproof",
    "https://images.unsplash.com/photo-1690702692894-110f6e88c390?crop=entropy&cs=tinysrgb&fit=max&fm=jpg&ixid=M3w3Nzg4Nzd8MHwxfHNlYXJjaHwxfHxzbm93JTIwYm9vdHMlMjB3YXRlcnByb29mfGVufDF8fHx8MTc2Mjg4ODk2N3ww&ixlib=rb-4.1.0&q=80&w=1080"),
   ("wool scarf knit gloves set",
    "https://images.unsplash.com/photo-1639654827521-cb4f5edf8675?crop=entropy&cs=tinysrgb&fit=max&fm=jpg&ixid=M3w3Nzg4Nzd8MHwxfHNlYXJjaHwxfHx3b29sJTIwc2NhcmYlMjBnbG92ZXN8ZW58MXx8fHwxNzYyODg4OTY3fDA&ixlib=rb-4.1.0&q=80&w=1080"),
   ("navy blue winter parka",
    "https://images.unsplash.com/photo-1610636359791-bdac02d318b5?crop=entropy&cs=tinysrgb&fit=max&fm=jpg&ixid=M3w3Nzg4Nzd8MHwxfHNlYXJjaHwxfHxuYXZ5JTIwd2ludGVyJTIwcGFya2F8ZW58MXx8fHwxNzYyODg4OTY4fDA&ixlib=rb-4.1.0&q=80&w=1080"),
   ("cable knit sweater beige",
    "https://images.unsplash.com/photo-1758537698215-af1e35acb911?crop=entropy&cs=tinysrgb&fit=max&fm=jpg&ixid=M3w3Nzg4Nzd8MHwxfHNlYXJjaHwxfHxjYWJsZSUyMGtuaXQlMjBzd2VhdGVyfGVufDF8fHx8MTc2Mjg4ODk2OHww&ixlib=rb-4.1.0&q=80&w=1080"),
   ("leather winter boots brown",
    "https://images.unsplash.com/photo-1639270602419-6392f0723174?crop=entropy&cs=tinysrgb&fit=max&fm=jpg&ixid=M3w3Nzg4Nzd8MHwxfHNlYXJjaHwxfHxsZWF0aGVyJTIwd2ludGVyJTIwYm9vdHN8ZW58MXx8fHwxNzYyODg4OTY4fDA&ixlib=rb-4.1.0&q=80&w=1080"),
   ("beanie hat winter mittens",
    "https://images.unsplash.com/photo-1740381698754-3920d7407365?crop=entropy&cs=tinysrgb&fit=max&fm=jpg&ixid=M3w3Nzg4Nzd8MHwxfHNlYXJjaHwxfHxiZWFuaWUlMjB3aW50ZXIlMjBtaXR0ZW5zfGVufDF8fHx8MTc2Mjg4ODk2OXww&ixlib=rb-4.1.0&q=80&w=1080"),
   ("long wool coat gray",
    "https://images.unsplash.com/photo-1608227611229-4f8d1d5339b6?crop=entropy&cs=tinysrgb&fit=max&fm=jpg&ixid=M3w3Nzg4Nzd8MHwxfHNlYXJjaHwxfHxsb25nJTIwd29vbCUyMGNvYXR8ZW58MXx8fHwxNzYyODg4OTY5fDA&ixlib=rb-4.1.0&q=80&w=1080"),
   ("turtleneck sweater black",
    "https://images.unsplash.com/photo-1591470481729-2bcc11e3acb8?crop=entropy&cs=tinysrgb&fit=max&fm=jpg&ixid=M3w3Nzg4Nzd8MHwxfHNlYXJjaHwxfHx0dXJ0bGVuZWNrJTIwc3dlYXRlciUyMGJsYWNrfGVufDF8fHx8MTc2Mjg4ODk2OXww&ixlib=rb-4.1.0&q=80&w=1080"),
   ("leather ankle boots black",
    "https://images.unsplash.com/photo-1571489555750-c932b569ef5d?crop=entropy&cs=tinysrgb&fit=max&fm=jpg&ixid=M3w3Nzg4Nzd8MHwxfHNlYXJjaHwxfHxibGFjayUyMGFua2xlJTIwYm9vdHN8ZW58MXx8fHwxNzYyODg4OTcwfDA&ixlib=rb-4.1.0&q=80&w=1080"),
   ("cashmere scarf winter",
    "https://images.unsplash.com/photo-1551381912-4e2e29c7fd17?crop=entropy&cs=tinysrgb&fit=max&fm=jpg&ixid=M3w3Nzg4Nzd8MHwxfHNlYXJjaHwxfHxjYXNobWVyZSUyMHNjYXJmfGVufDF8fHx8MTc2MjgyOTA5Mnww&ixlib=rb-4.1.0&q=80&w=1080"),
   ("blue denim jacket classic",
    "https://images.unsplash.com/photo-1580644228275-2b826dbec5bf?crop=entropy&cs=tinysrgb&fit=max&fm=jpg&ixid=M3w3Nzg4Nzd8MHwxfHNlYXJjaHwxfHxibHVlJTIwZGVuaW0lMjBqYWNrZXR8ZW58MXx8fHwxNzYyNzkzNTQxfDA&ixlib=rb-4.1.0&q=80&w=1080"),
   ("cream knit sweater cozy",
    "https://images.unsplash.com/photo-1603906650843-b58e94d9df4d?crop=entropy&cs=tinysrgb&fit=max&fm=jpg&ixid=M3w3Nzg4Nzd8MHwxfHNlYXJjaHwxfHxjcmVhbSUyMGtuaXQlMjBzd2VhdGVyfGVufDF8fHx8MTc2Mjg4ODk3MXww&ixlib=rb-4.1.0&q=80&w=1080"),
   ("suede ankle boots tan",
    "https://images.unsplash.com/photo-1761052720710-32349209f6b4?crop=entropy&cs=tinysrgb&fit=max&fm=jpg&ixid=M3w3Nzg4Nzd8MHwxfHNlYXJjaHwxfHxzdWVkZSUyMGFua2xlJTIwYm9vdHN8ZW58MXx8fHwxNzYyODg4OTcxfDA&ixlib=rb-4.1.0&q=80&w=1080"),
   ("plaid scarf wool",
    "https://images.unsplash.com/photo-1609803384069-19f3e5a70e75?crop=entropy&cs=tinysrgb&fit=max&fm=jpg&ixid=M3w3Nzg4Nzd8MHwxfHNlYXJjaHwxfHxwbGFpZCUyMHdvb2wlMjBzY2FyZnxlbnwxfHx8fDE3NjI4ODg5NzJ8MA&ixlib=rb-4.1.0&q=80&w=1080"),
   ("black bomber jacket leather",
    "https://images.unsplash.com/photo-1635588773098-7b365495e2f1?crop=entropy&cs=tinysrgb&fit=max&fm=jpg&ixid=M3w3Nzg4Nzd8MHwxfHNlYXJjaHwxfHxibGFjayUyMGJvbWJlciUyMGphY2tldHxlbnwxfHx8fDE3NjI4MTM0MDh8MA&ixlib=rb-4.1.0&q=80&w=1080"),
   ("gray turtleneck sweater",
    "https://images.unsplash.com/photo-1603906650843-b58e94d9df4d?crop=entropy&cs=tinysrgb&fit=max&fm=jpg&ixid=M3w3Nzg4Nzd8MHwxfHNlYXJjaHwxfHxncmF5JTIwdHVydGxlbmVja3xlbnwxfHx8fDE3NjI4ODg5NzJ8MA&ixlib=rb-4.1.0&q=80&w=1080"),
   ("black chelsea boots leather",
    "https://images.unsplash.com/photo-1608629601270-a0007becead3?crop=entropy&cs=tinysrgb&fit=max&fm=jpg&ixid=M3w3Nzg4Nzd8MHwxfHNlYXJjaHwxfHxjaGVsc2VhJTIwYm9vdHMlMjBsZWF0aGVyfGVufDF8fHx8MTc2MjgwMTkwOXww&ixlib=rb-4.1.0&q=80&w=1080"),
   ("minimalist scarf black",
    "https://images.unsplash.com/photo-1644483518975-1a74bff3ab94?crop=entropy&cs=tinysrgb&fit=max&fm=jpg&ixid=M3w3Nzg4Nzd8MHwxfHNlYXJjaHwxfHxibGFjayUyMG1pbmltYWxpc3QlMjBzY2FyZnxlbnwxfHx8fDE3NjI4ODg5NzN8MA&ixlib=rb-4.1.0&q=80&w=1080"),
   ("tan beige wool overcoat jacket",
    "https://images.unsplash.com/photo-1539533018447-63fcce2678e3?crop=entropy&cs=tinysrgb&fit=max&fm=jpg&ixid=M3w3Nzg4Nzd8MHwxfHNlYXJjaHwxfHx0YW4lMjB3b29sJTIwb3ZlcmNvYXR8ZW58MXx8fHwxNzYyOTAyMzgxfDA&ixlib=rb-4.1.0&q=80&w=1080"),
   ("burgundy knit pullover sweater crewneck",
    "https://images.unsplash.com/photo-1620799140188-3b2a02fd9a77?crop=entropy&cs=tinysrgb&fit=max&fm=jpg&ixid=M3w3Nzg4Nzd8MHwxfHNlYXJjaHwxfHxidXJndW5keSUyMGtuaXQlMjBwdWxsb3ZlcnxlbnwxfHx8fDE3NjI5MDIzODF8MA&ixlib=rb-4.1.0&q=80&w=1080"),
   ("brown leather boots vintage",
    "https://images.unsplash.com/photo-1638158980051-f7e67291efed?crop=entropy&cs=tinysrgb&fit=max&fm=jpg&ixid=M3w3Nzg4Nzd8MHwxfHNlYXJjaHwxfHxicm93biUyMGxlYXRoZXIlMjBib290c3xlbnwxfHx8fDE3NjI4ODg5NzR8MA&ixlib=rb-4.1.0&q=80&w=1080"),
   ("chunky knit scarf beige",
    "https://images.unsplash.com/photo-1670080589800-6416c8ce8a14?crop=entropy&cs=tinysrgb&fit=max&fm=jpg&ixid=M3w3Nzg4Nzd8MHwxfHNlYXJjaHwxfHxiZWlnZSUyMGtuaXQlMjBzY2FyZnxlbnwxfHx8fDE3NjI4ODg5NzR8MA&ixlib=rb-4.1.0&q=80&w=1080"),
   ("khaki field jacket spring",
    "https://images.unsplash.com/photo-1650594506500-c87c4c82bb43?crop=entropy&cs=tinysrgb&fit=max&fm=jpg&ixid=M3w3Nzg4Nzd8MHwxfHNlYXJjaHwxfHxraGFraSUyMGZpZWxkJTIwamFja2V0fGVufDF8fHx8MTc2Mjg4ODk3NXww&ixlib=rb-4.1.0&q=80&w=1080"),
   ("white oxford shirt cotton",
    "https://images.unsplash.com/photo-1644860588182-0998b4ef5587?crop=entropy&cs=tinysrgb&fit=max&fm=jpg&ixid=M3w3Nzg4Nzd8MHwxfHNlYXJjaHwxfHx3aGl0ZSUyMG94Zm9yZCUyMHNoaXJ0fGVufDF8fHx8MTc2Mjg4ODk3NXww&ixlib=rb-4.1.0&q=80&w=1080"),
   ("white leather sneakers clean",
    "https://images.unsplash.com/photo-1722489291778-cb2a414d6ee0?crop=entropy&cs=tinysrgb&fit=max&fm=jpg&ixid=M3w3Nzg4Nzd8MHwxfHNlYXJjaHwxfHx3aGl0ZSUyMGxlYXRoZXIlMjBzbmVha2Vyc3xlbnwxfHx8fDE3NjI4NTY5Mzl8MA&ixlib=rb-4.1.0&q=80&w=1080"),
   ("navy cardigan button front",
    "https://images.unsplash.com/photo-1758981400268-1181291b9503?crop=entropy&cs=tinysrgb&fit=max&fm=jpg&ixid=M3w3Nzg4Nzd8MHwxfHNlYXJjaHwxfHxidXR0b24lMjBjYXJkaWdhbiUyMHN3ZWF0ZXJ8ZW58MXx8fHwxNzYyOTAxMDcwfDA&ixlib=rb-4.1.0&q=80&w=1080"),
   ("striped polo shirt casual",
    "https://images.unsplash.com/photo-1760287363713-a864ca9b1b1f?crop=entropy&cs=tinysrgb&fit=max&fm=jpg&ixid=M3w3Nzg4Nzd8MHwxfHNlYXJjaHwxfHxzdHJpcGVkJTIwcG9sbyUyMHNoaXJ0fGVufDF8fHx8MTc2Mjg4ODk3Nnww&ixlib=rb-4.1.0&q=80&w=1080"),
   ("brown suede loafers",
    "https://images.unsplash.com/photo-1664095885197-fdff6611560c?crop=entropy&cs=tinysrgb&fit=max&fm=jpg&ixid=M3w3Nzg4Nzd8MHwxfHNlYXJjaHwxfHxicm93biUyMHN1ZWRlJTIwbG9hZmVyc3xlbnwxfHx8fDE3NjI4ODg5Nzd8MA&ixlib=rb-4.1.0&q=80&w=1080"),
   ("blue windbreaker jacket athletic",
    "https://images.unsplash.com/photo-1548126032-079a0fb0099d?crop=entropy&cs=tinysrgb&fit=max&fm=jpg&ixid=M3w3Nzg4Nzd8MHwxfHNlYXJjaHwxfHx3aW5kYnJlYWtlciUyMGphY2tldHxlbnwxfHx8fDE3NjI4OTExODN8MA&ixlib=rb-4.1.0&q=80&w=1080"),
   ("gray henley shirt long sleeve",
    "https://images.unsplash.com/photo-1693443688057-85f57b872a3c?crop=entropy&cs=tinysrgb&fit=max&fm=jpg&ixid=M3w3Nzg4Nzd8MHwxfHNlYXJjaHwxfHxncmF5JTIwaGVubGV5JTIwc2hpcnR8ZW58MXx8fHwxNzYyODg4OTgxfDA&ixlib=rb-4.1.0&q=80&w=1080"),
   ("running shoes athletic colorful",
    "https://images.unsplash.com/photo-1739132268718-53d64165d29a?crop=entropy&cs=tinysrgb&fit=max&fm=jpg&ixid=M3w3Nzg4Nzd8MHwxfHNlYXJjaHwxfHxjb2xvcmZ1bCUyMHJ1bm5pbmclMjBzaG9lc3xlbnwxfHx8fDE3NjI3ODIzODZ8MA&ixlib=rb-4.1.0&q=80&w=1080"),
   ("plain white tshirt cotton",
    "https://images.unsplash.com/photo-1644860588182-0998b4ef5587?crop=entropy&cs=tinysrgb&fit=max&fm=jpg&ixid=M3w3Nzg4Nzd8MHwxfHNlYXJjaHwxfHx3aGl0ZSUyMGNvdHRvbiUyMHRzaGlydHxlbnwxfHx8fDE3NjI4ODg5ODJ8MA&ixlib=rb-4.1.0&q=80&w=1080"),
   ("gray cardigan lightweight spring",
    "https://images.unsplash.com/photo-1611780748105-42c40cdc8eae?crop=entropy&cs=tinysrgb&fit=max&fm=jpg&ixid=M3w3Nzg4Nzd8MHwxfHNlYXJjaHwxfHxjYXJkaWdhbiUyMGJ1dHRvbnMlMjBvcGVufGVufDB8fHx8MTc2MjkwMTA3MXww&ixlib=rb-4.1.0&q=80&w=1080"),
   ("canvas sneakers blue casual",
    "https://images.unsplash.com/photo-1758443909732-2c4201e5b590?crop=entropy&cs=tinysrgb&fit=max&fm=jpg&ixid=M3w3Nzg4Nzd8MHwxfHNlYXJjaHwxfHxibHVlJTIwY2FudmFzJTIwc25lYWtlcnN8ZW58MXx8fHwxNzYyODAxNzIzfDA&ixlib=rb-4.1.0&q=80&w=1080"),
   ("navy polo shirt classic",
    "https://images.unsplash.com/photo-1692195400719-81a66b4fde89?crop=entropy&cs=tinysrgb&fit=max&fm=jpg&ixid=M3w3Nzg4Nzd8MHwxfHNlYXJjaHwxfHxuYXZ5JTIwcG9sbyUyMHNoaXJ0fGVufDF8fHx8MTc2Mjg4NjAzNXww&ixlib=rb-4.1.0&q=80&w=1080"),
   ("beige chino pants casual",
    "https://images.unsplash.com/photo-1756009531697-51da316bfa3a?crop=entropy&cs=tinysrgb&fit=max&fm=jpg&ixid=M3w3Nzg4Nzd8MHwxfHNlYXJjaHwxfHxiZWlnZSUyMGNoaW5vJTIwcGFudHN8ZW58MXx8fHwxNzYyODg4OTgzfDA&ixlib=rb-4.1.0&q=80&w=1080"),
   ("leather oxford shoes brown",
    "https://images.unsplash.com/photo-1616663308968-58162d332720?crop=entropy&cs=tinysrgb&fit=max&fm=jpg&ixid=M3w3Nzg4Nzd8MHwxfHNlYXJjaHwxfHxicm93biUyMG94Zm9yZCUyMHNob2VzfGVufDF8fHx8MTc2Mjg4ODk4M3ww&ixlib=rb-4.1.0&q=80&w=1080"),
   ("graphic tshirt black streetwear",
    "https://images.unsplash.com/photo-1662103627854-ae7551d1eddb?crop=entropy&cs=tinysrgb&fit=max&fm=jpg&ixid=M3w3Nzg4Nzd8MHwxfHNlYXJjaHwxfHxibGFjayUyMGdyYXBoaWMlMjB0c2hpcnR8ZW58MXx8fHwxNzYyNzk3MTc1fDA&ixlib=rb-4.1.0&q=80&w=1080"),
   ("oversized hoodie gray urban",
    "https://images.unsplash.com/photo-1580159851546-833dd8f26318?crop=entropy&cs=tinysrgb&fit=max&fm=jpg&ixid=M3w3Nzg4Nzd8MHwxfHNlYXJjaHwxfHxncmF5JTIwb3ZlcnNpemVkJTIwaG9vZGllfGVufDF8fHx8MTc2Mjg4ODk4NHww&ixlib=rb-4.1.0&q=80&w=1080"),
   ("high top sneakers white street",
    "https://images.unsplash.com/photo-1759527588071-e143b4a451b0?crop=entropy&cs=tinysrgb&fit=max&fm=jpg&ixid=M3w3Nzg4Nzd8MHwxfHNlYXJjaHwxfHx3aGl0ZSUyMGhpZ2glMjB0b3AlMjBzbmVha2Vyc3xlbnwxfHx8fDE3NjI4ODg5ODV8MA&ixlib=rb-4.1.0&q=80&w=1080"),
   ("light blue tshirt cotton summer",
    "https://images.unsplash.com/photo-1680469975417-a7e5b6ad0784?crop=entropy&cs=tinysrgb&fit=max&fm=jpg&ixid=M3w3Nzg4Nzd8MHwxfHNlYXJjaHwxfHxsaWdodCUyMGJsdWUlMjB0c2hpcnR8ZW58MXx8fHwxNzYyODg4OTg1fDA&ixlib=rb-4.1.0&q=80&w=1080"),
   ("navy blue shorts casual summer",
    "https://images.unsplash.com/photo-1624378439140-20d221f1b36d?crop=entropy&cs=tinysrgb&fit=max&fm=jpg&ixid=M3w3Nzg4Nzd8MHwxfHNlYXJjaHwxfHxuYXZ5JTIwYmx1ZSUyMHNob3J0c3xlbnwxfHx8fDE3NjI4ODg5ODV8MA&ixlib=rb-4.1.0&q=80&w=1080"),
   ("leather slide sandals brown",
    "https://images.unsplash.com/photo-1663693586817-f7e0ceb27bd7?crop=entropy&cs=tinysrgb&fit=max&fm=jpg&ixid=M3w3Nzg4Nzd8MHwxfHNlYXJjaHwxfHxicm93biUyMGxlYXRoZXIlMjBzYW5kYWxzfGVufDF8fHx8MTc2Mjg4ODk4Nnww&ixlib=rb-4.1.0&q=80&w=1080"),
   ("aviator sunglasses gold",
    "https://images.unsplash.com/photo-1732139637229-4be95d41cce8?crop=entropy&cs=tinysrgb&fit=max&fm=jpg&ixid=M3w3Nzg4Nzd8MHwxfHNlYXJjaHwxfHxnb2xkJTIwYXZpYXRvciUyMHN1bmdsYXNzZXN8ZW58MXx8fHwxNzYyODg4OTg2fDA&ixlib=rb-4.1.0&q=80&w=1080"),
   ("white tank top athletic summer",
    "https://images.unsplash.com/photo-1759365485726-cfe4166bbfe7?crop=entropy&cs=tinysrgb&fit=max&fm=jpg&ixid=M3w3Nzg4Nzd8MHwxfHNlYXJjaHwxfHx3aGl0ZSUyMGF0aGxldGljJTIwdGFua3xlbnwxfHx8fDE3NjI4ODg5ODd8MA&ixlib=rb-4.1.0&q=80&w=1080"),
   ("light wash denim shorts",
    "https://images.unsplash.com/photo-1620231619471-b28081fc3509?crop=entropy&cs=tinysrgb&fit=max&fm=jpg&ixid=M3w3Nzg4Nzd8MHwxfHNlYXJjaHwxfHxsaWdodCUyMGRlbmltJTIwc2hvcnRzfGVufDF8fHx8MTc2Mjg4ODk4N3ww&ixlib=rb-4.1.0&q=80&w=1080"),
   ("rubber flip flops beach black",
    "https://images.unsplash.com/photo-1760612887190-ea94041f1920?crop=entropy&cs=tinysrgb&fit=max&fm=jpg&ixid=M3w3Nzg4Nzd8MHwxfHNlYXJjaHwxfHxibGFjayUyMGZsaXAlMjBmbG9wc3xlbnwxfHx8fDE3NjI4ODg5ODd8MA&ixlib=rb-4.1.0&q=80&w=1080"),
   ("classic aviator sunglasses silver",
    "https://images.unsplash.com/photo-1589782182703-2aaa69037b5b?crop=entropy&cs=tinysrgb&fit=max&fm=jpg&ixid=M3w3Nzg4Nzd8MHwxfHNlYXJjaHwxfHxzaWx2ZXIlMjBhdmlhdG9yJTIwc3VuZ2xhc3Nlc3xlbnwxfHx8fDE3NjI4ODg5ODh8MA&ixlib=rb-4.1.0&q=80&w=1080"),
   ("beige linen shirt short sleeve",
    "https://images.unsplash.com/photo-1651895884377-5f631be84282?crop=entropy&cs=tinysrgb&fit=max&fm=jpg&ixid=M3w3Nzg4Nzd8MHwxfHNlYXJjaHwxfHxiZWlnZSUyMGxpbmVuJTIwc2hpcnR8ZW58MXx8fHwxNzYyODg4OTg4fDA&ixlib=rb-4.1.0&q=80&w=1080"),
   ("white linen pants summer",
    "https://images.unsplash.com/photo-1614539655719-256312070de7?crop=entropy&cs=tinysrgb&fit=max&fm=jpg&ixid=M3w3Nzg4Nzd8MHwxfHNlYXJjaHwxfHx3aGl0ZSUyMGxpbmVuJTIwcGFudHN8ZW58MXx8fHwxNzYyODg4OTg5fDA&ixlib=rb-4.1.0&q=80&w=1080"),
   ("cream canvas sneakers summer",
    "https://images.unsplash.com/photo-1663151860122-4890a08dc22b?crop=entropy&cs=tinysrgb&fit=max&fm=jpg&ixid=M3w3Nzg4Nzd8MHwxfHNlYXJjaHwxfHxjcmVhbSUyMGNhbnZhcyUyMHNuZWFrZXJzfGVufDF8fHx8MTc2Mjg4ODk4OXww&ixlib=rb-4.1.0&q=80&w=1080"),
   ("round sunglasses tortoise",
    "https://images.unsplash.com/photo-1681147768015-c6d3702f5e4f?crop=entropy&cs=tinysrgb&fit=max&fm=jpg&ixid=M3w3Nzg4Nzd8MHwxfHNlYXJjaHwxfHx0b3J0b2lzZSUyMHJvdW5kJTIwc3VuZ2xhc3Nlc3xlbnwxfHx8fDE3NjI4ODg5ODl8MA&ixlib=rb-4.1.0&q=80&w=1080"),
   ("mesh tank top athletic black",
    "https://images.unsplash.com/photo-1557437173-01f7fd66bf94?crop=entropy&cs=tinysrgb&fit=max&fm=jpg&ixid=M3w3Nzg4Nzd8MHwxfHNlYXJjaHwxfHxibGFjayUyMG1lc2glMjB0YW5rfGVufDF8fHx8MTc2Mjg4ODk5MHww&ixlib=rb-4.1.0&q=80&w=1080"),
   ("performance shorts athletic gray",
    "https://images.unsplash.com/photo-1723972405511-e3785a045721?crop=entropy&cs=tinysrgb&fit=max&fm=jpg&ixid=M3w3Nzg4Nzd8MHwxfHNlYXJjaHwxfHxncmF5JTIwYXRobGV0aWMlMjBzaG9ydHN8ZW58MXx8fHwxNzYyODg4OTkwfDA&ixlib=rb-4.1.0&q=80&w=1080"),
   ("sport sandals outdoor black",
    "https://images.unsplash.com/photo-1593548826648-0357b8c884a9?crop=entropy&cs=tinysrgb&fit=max&fm=jpg&ixid=M3w3Nzg4Nzd8MHwxfHNlYXJjaHwxfHxibGFjayUyMHNwb3J0JTIwc2FuZGFsc3xlbnwxfHx8fDE3NjI4ODg5OTB8MA&ixlib=rb-4.1.0&q=80&w=1080"),
   ("straw sun hat wide brim",
    "https://images.unsplash.com/photo-1759935937415-49099042fa91?crop=entropy&cs=tinysrgb&fit=max&fm=jpg&ixid=M3w3Nzg4Nzd8MHwxfHNlYXJjaHwxfHxzdHJhdyUyMHdpZGUlMjBicmltJTIwaGF0fGVufDF8fHx8MTc2Mjg4ODk5MXww&ixlib=rb-4.1.0&q=80&w=1080"),
   ("colorful tank top tropical print",
    "https://images.unsplash.com/photo-1751024049983-4b1105eb1678?crop=entropy&cs=tinysrgb&fit=max&fm=jpg&ixid=M3w3Nzg4Nzd8MHwxfHNlYXJjaHwxfHxjb2xvcmZ1bCUyMHRyb3BpY2FsJTIwdGFua3xlbnwxfHx8fDE3NjI4ODg5OTF8MA&ixlib=rb-4.1.0&q=80&w=1080"),
   ("swim trunks tropical pattern",
    "https://images.unsplash.com/photo-1536685409149-2ca88666aa47?crop=entropy&cs=tinysrgb&fit=max&fm=jpg&ixid=M3w3Nzg4Nzd8MHwxfHNlYXJjaHwxfHx0cm9waWNhbCUyMHN3aW0lMjBzaG9ydHN8ZW58MXx8fHwxNzYyODg4OTkyfDA&ixlib=rb-4.1.0&q=80&w=1080"),
   ("flip flops beach colorful",
    "https://images.unsplash.com/photo-1550980451-ef715ac3ef01?crop=entropy&cs=tinysrgb&fit=max&fm=jpg&ixid=M3w3Nzg4Nzd8MHwxfHNlYXJjaHwxfHxjb2xvcmZ1bCUyMGJlYWNoJTIwc2FuZGFsc3xlbnwxfHx8fDE3NjI4ODg5OTV8MA&ixlib=rb-4.1.0&q=80&w=1080"),
   ("baseball cap summer white",
    "https://images.unsplash.com/photo-1611692370244-aebb15c17941?crop=entropy&cs=tinysrgb&fit=max&fm=jpg&ixid=M3w3Nzg4Nzd8MHwxfHNlYXJjaHwxfHx3aGl0ZSUyMGJhc2ViYWxsJTIwY2FwfGVufDF8fHx8MTc2Mjg4ODk5NXww&ixlib=rb-4.1.0&q=80&w=1080"),
   ("technical tshirt outdoor beige",
    "https://images.unsplash.com/photo-1742210903945-e41b61e5d9d7?crop=entropy&cs=tinysrgb&fit=max&fm=jpg&ixid=M3w3Nzg4Nzd8MHwxfHNlYXJjaHwxfHxiZWlnZSUyMG91dGRvb3IlMjB0c2hpcnR8ZW58MXx8fHwxNzYyODg4OTk2fDA&ixlib=rb-4.1.0&q=80&w=1080"),
   ("cargo shorts outdoor khaki",
    "https://images.unsplash.com/photo-1719473448126-eb1159ec5242?crop=entropy&cs=tinysrgb&fit=max&fm=jpg&ixid=M3w3Nzg4Nzd8MHwxfHNlYXJjaHwxfHxraGFraSUyMGNhcmdvJTIwc2hvcnRzfGVufDF8fHx8MTc2Mjg4ODk5Nnww&ixlib=rb-4.1.0&q=80&w=1080"),
   ("hiking sandals outdoor brown",
    "https://images.unsplash.com/photo-1632078646266-236c777374d4?crop=entropy&cs=tinysrgb&fit=max&fm=jpg&ixid=M3w3Nzg4Nzd8MHwxfHNlYXJjaHwxfHxicm93biUyMGhpa2luZyUyMHNhbmRhbHN8ZW58MXx8fHwxNzYyODg4OTk3fDA&ixlib=rb-4.1.0&q=80&w=1080"),
   ("bucket hat outdoor navy",
    "https://images.unsplash.com/photo-1682623762727-59194bd4c85b?crop=entropy&cs=tinysrgb&fit=max&fm=jpg&ixid=M3w3Nzg4Nzd8MHwxfHNlYXJjaHwxfHxuYXZ5JTIwYnVja2V0JTIwaGF0fGVufDF8fHx8MTc2Mjg4ODk5N3ww&ixlib=rb-4.1.0&q=80&w=1080"),
   ("umbrella rain",
    "https://images.unsplash.com/photo-1757548710136-66a371811d1c?crop=entropy&cs=tinysrgb&fit=max&fm=jpg&ixid=M3w3Nzg4Nzd8MHwxfHNlYXJjaHwxfHxibGFjayUyMHVtYnJlbGxhJTIwcmFpbnxlbnwxfHx8fDE3NjI4ODg5OTd8MA&ixlib=rb-4.1.0&q=80&w=1080")]

/-- JS `split(' ')` on a char list: split at every single space. -/
def splitSpAux : List Char → List Char → List (List Char)
  | [], acc => [acc.reverse]
  | c :: rest, acc =>
    if c = ' ' then acc.reverse :: splitSpAux rest [] else splitSpAux rest (c :: acc)

/-- JS `s.split(' ')`. -/
def splitSpace (l : List Char) : List (List Char) := splitSpAux l []

/-- Exact (case-sensitive) lookup in the cache, as `imageCache[query]`. -/
def lookupA (q : String) : List (String × String) → Option String
  | [] => none
  | (k, v) :: rest => if k = q then some v else lookupA q rest

/-- Score of a cache key: the number of query words that cross-match some
key word by substring containment in either direction
(`kWord.includes(qWord) || qWord.includes(kWord)`). -/
def matchScore (qws kws : List (List Char)) : Nat :=
  (qws.filter (fun q => kws.any (fun k => isSubCL q k || isSubCL k q))).length

/-- Insert into a descending-by-score list, after equal scores (the
stable order JS `sort((a, b) => b.score - a.score)` produces). -/
def insertDesc (x : String × Nat) : List (String × Nat) → List (String × Nat)
  | [] => [x]
  | y :: ys => if y.2 < x.2 then x :: y :: ys else y :: insertDesc x ys

/-- Stable sort by score, descending. -/
def sortDesc (l : List (String × Nat)) : List (String × Nat) :=
  l.foldl (fun acc x => insertDesc x acc) []

/-- The hard-coded generic fashion photo used as last resort. -/
def genericFallbackUrl : String :=
  "https://images.unsplash.com/photo-1489987707025-afc232f7ea0f?w=400&h=400&fit=crop"

/-- The cache path of `fetchUnsplashImage`, taken when the live provider
call yields no image URL: exact cache hit, else fuzzy scoring of every
cache key against the lowercased query, keeping the best-scoring key if
its score is at least 2, else the generic fallback. -/
def unsplashCacheFallback (query : String) : String :=
  match lookupA query imageCache with
  | some url => url
  | none =>
    let queryWords := splitSpace (toLowerStr query).data
    let scoredKeys := imageCache.map
      (fun kv => (kv.1, matchScore queryWords (splitSpace (toLowerStr kv.1).data)))
    match sortDesc scoredKeys with
    | [] => genericFallbackUrl
    | best :: _ =>
      if 2 ≤ best.2 then (lookupA best.1 imageCache).getD genericFallbackUrl
      else genericFallbackUrl

/-! ### Supporting lemmas -/

theorem strData_append (x y : String) : (x ++ y).data = x.data ++ y.data := by
  cases x; cases y; rfl

theorem isPrefCL_append (p t : List Char) : isPrefCL p (p ++ t) = true := by
  induction p with
  | nil => rfl
  | cons a as ih => simp [isPrefCL, ih]

theorem isSubCL_mid (a b p : List Char) : isSubCL p (a ++ (p ++ b)) = true := by
  induction a with
  | nil =>
    simp only [List.nil_append]
    cases hpb : p ++ b with
    | nil =>
      have hp : p = [] := by
        cases p with
        | nil => rfl
        | cons x xs => simp at hpb
      subst hp
      simp [isSubCL, isPrefCL]
    | cons c rest =>
      have h2 : isPrefCL p (c :: rest) = true := by
        rw [← hpb]
        exact isPrefCL_append p b
      simp [isSubCL, h2]
  | cons x xs ih =>
    simp only [List.cons_append]
    unfold isSubCL
    rw [ih]
    simp

theorem isSubCL_pre (a p : List Char) : isSubCL p (a ++ p) = true := by
  have h := isSubCL_mid a [] p
  simpa using h

theorem jsIncludes_pos2 (b x s w h : String) :
    jsIncludes ((((b ++ x) ++ s) ++ w) ++ h) x = true := by
  unfold jsIncludes
  simp only [strData_append, List.append_assoc]
  exact isSubCL_mid _ _ _

theorem jsIncludes_pos3 (b r x w h : String) :
    jsIncludes ((((b ++ r) ++ x) ++ w) ++ h) x = true := by
  unfold jsIncludes
  simp only [strData_append, List.append_assoc]
  rw [← List.append_assoc]
  exact isSubCL_mid _ _ _

theorem jsIncludes_pos4 (b r s x h : String) :
    jsIncludes ((((b ++ r) ++ s) ++ x) ++ h) x = true := by
  unfold jsIncludes
  simp only [strData_append, List.append_assoc]
  rw [← List.append_assoc, ← List.append_assoc]
  exact isSubCL_mid _ _ _

theorem jsIncludes_pos5 (b r s w x : String) :
    jsIncludes ((((b ++ r) ++ s) ++ w) ++ x) x = true := by
  unfold jsIncludes
  simp only [strData_append, List.append_assoc]
  rw [← List.append_assoc, ← List.append_assoc, ← List.append_assoc]
  exact isSubCL_pre _ _

theorem condAdjust_map_style (c : String) (l : List OutfitVariation) :
    (condAdjust c l).map OutfitVariation.style = l.map OutfitVariation.style := by
  unfold condAdjust
  split_ifs <;> simp [List.map_map]

theorem condAdjust_length (c : String) (l : List OutfitVariation) :
    (condAdjust c l).length = l.length := by
  unfold condAdjust
  split_ifs <;> simp

theorem condAdjust_mem_umbrella (c : String) (l : List OutfitVariation)
    (h : (jsIncludes c "rain" || jsIncludes c "drizzle") = true) :
    ∀ v ∈ condAdjust c l, umbrellaItem ∈ v.items := by
  intro v hv
  unfold condAdjust at hv
  rw [if_pos h] at hv
  by_cases hs : jsIncludes c "snow" = true
  · rw [if_pos hs] at hv
    simp only [List.mem_map] at hv
    obtain ⟨u, ⟨u0, _, rfl⟩, rfl⟩ := hv
    simp
  · rw [if_neg hs] at hv
    simp only [List.mem_map] at hv
    obtain ⟨u0, _, rfl⟩ := hv
    simp

theorem condAdjust_mem_snow (c : String) (l : List OutfitVariation)
    (h : jsIncludes c "snow" = true) :
    ∀ v ∈ condAdjust c l, snowGearItem ∈ v.items := by
  intro v hv
  unfold condAdjust at hv
  rw [if_pos h] at hv
  simp only [List.mem_map] at hv
  obtain ⟨u, _, rfl⟩ := hv
  simp


theorem lookupA_mem (q : String) :
    ∀ (l : List (String × String)) (u : String), lookupA q l = some u → u ∈ l.map Prod.snd := by
  intro l
  induction l with
  | nil => intro u h; simp [lookupA] at h
  | cons kv rest ih =>
    intro u h
    obtain ⟨k, v⟩ := kv
    unfold lookupA at h
    by_cases hk : k = q
    · rw [if_pos hk] at h
      simp at h
      simp [h]
    · rw [if_neg hk] at h
      simp [ih u h]


/-! ### Claims C1-C3: the intent extractor -/

/-- C1, counterexample: the claim says `"what should I wear tomorrow"`
yields SingleCity with the fallback city `"New York"`. It does not: the
unanchored preposition pattern finds `at` inside `what` followed by a
space, so its capture `"should I wear"` becomes the location and the
fallback is never consulted. -/
theorem c1_counterexample :
    extractIntent "what should I wear tomorrow" ≠ Intent.singleCity "New York" := by
  decide

/-- C1, amended: the first two utterances behave as stated; the third
yields SingleCity `"should I wear"` (the preposition pattern `(?:in|for|at)`
is not word-anchored and matches the `at` inside `what`, capturing up to
the time word `tomorrow`), not the fallback `"New York"`. -/
theorem c1_amended :
    extractIntent "compare Tokyo and New York" = Intent.compare "Tokyo" "New York" ∧
    extractIntent "weather in Seattle" = Intent.singleCity "Seattle" ∧
    extractIntent "what should I wear tomorrow" = Intent.singleCity "should I wear" :=
  ⟨rfl, rfl, rfl⟩

/-- C2, counterexample: the claim says the location sent onward is always
non-empty. For the utterance `"in today"` the preposition pattern captures
`"today"`, the fallback step sees a non-empty candidate and does nothing,
and the final word-boundary cleanup then erases it, so the extractor
resolves to the empty location. -/
theorem c2_counterexample : extractSingleCity "in today" = "" := rfl

/-- C2, amended: the fixed fallback `"New York"` is applied to the
candidate before the final word-boundary cleanup pass, so the location is
non-empty at the fallback point; but the cleanup pass runs after the
fallback and can still erase the location entirely, as `"in today"`
shows. -/
theorem c2_amended :
    (∀ msg : String, withFallback (strippedCandidate msg) ≠ "") ∧
    extractSingleCity "in today" = "" ∧
    extractIntent "in today" = Intent.singleCity "" := by
  refine ⟨?_, rfl, rfl⟩
  intro msg
  unfold withFallback
  split_ifs with h
  · decide
  · exact h

/-- C3, counterexample: the claim says both captured cities have the
substring `compare` removed. The second capture's cleaning chain omits the
`compare` replacement, so `"Paris vs compare London"` resolves to
Compare("Paris", "compare London") and not Compare("Paris", "London"). -/
theorem c3_counterexample :
    extractIntent "Paris vs compare London" = Intent.compare "Paris" "compare London" ∧
    extractIntent "Paris vs compare London" ≠ Intent.compare "Paris" "London" :=
  ⟨rfl, by decide⟩

/-- C3, amended: when a comparison pattern matches, the first captured
city is cleaned of `compare`, `weather in`, `weather for`, `weather`,
`the` and `?` (case-insensitive, all occurrences) and trimmed, but the
second captured city is cleaned of that list without `compare`. -/
theorem c3_amended :
    ∀ msg g1 g2, firstComparisonMatch msg = some (g1, g2) →
      extractIntent msg = Intent.compare
        (trimStr (repAll (repAll (repAll (repAll (repAll (repAll (trimStr g1)
          "compare") "weather in") "weather for") "weather") "the") "?"))
        (trimStr (repAll (repAll (repAll (repAll (repAll (trimStr g2)
          "weather in") "weather for") "weather") "the") "?")) := by
  intro msg g1 g2 h
  simp only [extractIntent, h]
  rfl

/-- Witness for the amended C3 at a concrete comparison utterance. -/
theorem c3_amended_witness :
    firstComparisonMatch "Paris vs compare London" = some ("Paris", "compare London") ∧
    extractIntent "Paris vs compare London" = Intent.compare
      (trimStr (repAll (repAll (repAll (repAll (repAll (repAll (trimStr "Paris")
        "compare") "weather in") "weather for") "weather") "the") "?"))
      (trimStr (repAll (repAll (repAll (repAll (repAll (trimStr "compare London")
        "weather in") "weather for") "weather") "the") "?")) :=
  ⟨rfl, c3_amended "Paris vs compare London" "Paris" "compare London" rfl⟩



/-! ### Claims C6-C7: the outfit rule table -/

/-- C6: `generateOutfitRecommendation` selects the band by the
unadjusted temperature thresholds, returns exactly three variations whose
style names are the table's for that band, and each base variation lists
3-4 items before condition post-processing. -/
theorem c6_temperature_bands : ∀ w : WeatherPayload,
    (generateOutfitRecommendation w).variations.map OutfitVariation.style =
      (if w.temp < 0 then ["Winter Essential", "Urban Winter", "Classic Cold Weather"]
       else if w.temp < 10 then ["Casual Cool", "Modern Edge", "Timeless Chic"]
       else if w.temp < 18 then ["Smart Casual", "Relaxed Comfort", "Active Ready"]
       else if w.temp < 25 then ["Everyday Casual", "Business Casual", "Streetwear Vibe"]
       else if w.temp < 30 then ["Summer Breeze", "Beach Ready", "Resort Casual"]
       else ["Heat Wave", "Tropical Vibes", "Desert Cool"]) ∧
    (generateOutfitRecommendation w).variations.length = 3 ∧
    (baseVariations w.temp).map (fun v => v.items.length) =
      (if w.temp < 0 then [4, 4, 4] else if w.temp < 10 then [4, 4, 4]
       else if w.temp < 18 then [3, 3, 3] else if w.temp < 25 then [3, 3, 3]
       else if w.temp < 30 then [4, 4, 4] else [4, 4, 4]) := by
  intro w
  refine ⟨?_, ?_, ?_⟩
  · show (condAdjust (toLowerStr w.condMain) (baseVariations w.temp)).map
      OutfitVariation.style = _
    rw [condAdjust_map_style]
    unfold baseVariations
    split_ifs <;> rfl
  · show (condAdjust (toLowerStr w.condMain) (baseVariations w.temp)).length = 3
    rw [condAdjust_length]
    unfold baseVariations
    split_ifs <;> rfl
  · unfold baseVariations
    split_ifs <;> rfl

/-- C7: the rain/drizzle, snow, wind and humidity post-processing is
applied uniformly: rain appends the Umbrella item to every variation and
the rain text to the note; snow likewise; wind over 8 m/s and
humidity over 80 percent with temperature over 20 add their note texts. -/
theorem c7_postprocessing : ∀ w : WeatherPayload,
    ((jsIncludes (toLowerStr w.condMain) "rain" ||
        jsIncludes (toLowerStr w.condMain) "drizzle") = true →
       (∀ v ∈ (generateOutfitRecommendation w).variations, umbrellaItem ∈ v.items) ∧
       jsIncludes (generateOutfitRecommendation w).note "☔ Rain expected! " = true) ∧
    (jsIncludes (toLowerStr w.condMain) "snow" = true →
       (∀ v ∈ (generateOutfitRecommendation w).variations, snowGearItem ∈ v.items) ∧
       jsIncludes (generateOutfitRecommendation w).note "❄️ Snowy weather! " = true) ∧
    (w.windSpeed > 8 →
       jsIncludes (generateOutfitRecommendation w).note "💨 Windy conditions! " = true) ∧
    (w.humidity > 80 ∧ w.temp > 20 →
       jsIncludes (generateOutfitRecommendation w).note
         "🌡️ High humidity - choose breathable fabrics! " = true) := by
  intro w
  refine ⟨fun h => ⟨?_, ?_⟩, fun h => ⟨?_, ?_⟩, fun h => ?_, fun h => ?_⟩
  · exact condAdjust_mem_umbrella _ _ h
  · show jsIncludes ((((baseNote w.temp ++ _) ++ _) ++ _) ++ _) _ = true
    rw [if_pos h]
    exact jsIncludes_pos2 _ _ _ _ _
  · exact condAdjust_mem_snow _ _ h
  · show jsIncludes ((((baseNote w.temp ++ _) ++ _) ++ _) ++ _) _ = true
    rw [if_pos h]
    exact jsIncludes_pos3 _ _ _ _ _
  · show jsIncludes ((((baseNote w.temp ++ _) ++ _) ++ _) ++ _) _ = true
    rw [if_pos h]
    exact jsIncludes_pos4 _ _ _ _ _
  · show jsIncludes ((((baseNote w.temp ++ _) ++ _) ++ _) ++ _) _ = true
    rw [if_pos h]
    exact jsIncludes_pos5 _ _ _ _ _

/-- Witness for C7 at a weather input triggering all four adjustments. -/
theorem c7_postprocessing_witness :
    jsIncludes (generateOutfitRecommendation payloadC7).note "☔ Rain expected! " = true ∧
    jsIncludes (generateOutfitRecommendation payloadC7).note "❄️ Snowy weather! " = true ∧
    jsIncludes (generateOutfitRecommendation payloadC7).note "💨 Windy conditions! " = true ∧
    jsIncludes (generateOutfitRecommendation payloadC7).note
      "🌡️ High humidity - choose breathable fabrics! " = true := by
  have h := c7_postprocessing payloadC7
  exact ⟨(h.1 (by decide)).2, (h.2.1 (by decide)).2,
    h.2.2.1 (by norm_num [payloadC7]),
    h.2.2.2 ⟨by norm_num [payloadC7], by norm_num [payloadC7]⟩⟩

/-! ### Claims C9-C10: the weather endpoint and mock weather -/

/-- C9: the endpoint errs exactly for a missing (or JS-falsy empty)
location or a non-401 upstream error status reached with a configured
key; a missing credential, a 401, or a network failure instead yield a
success response with demoMode true and a demo reason string. -/
theorem c9_error_taxonomy : ∀ (loc key : Option String) (up : Upstream) (j : Jitter),
    ((weatherEndpoint loc key up j).isErr = true ↔
      (loc = none ∨ loc = some "" ∨
        (key ≠ none ∧ ∃ s m, up = .httpErr s m ∧ s ≠ 401))) ∧
    ((loc ≠ none ∧ loc ≠ some "") →
      (key = none ∨ up = .netFail ∨ (∃ m, up = .httpErr 401 m)) →
      (weatherEndpoint loc key up j).demoFlag = some true ∧
      (weatherEndpoint loc key up j).reason ≠ none) := by
  intro loc key up j
  constructor
  · cases loc with
    | none => simp [weatherEndpoint, WeatherResp.isErr]
    | some l =>
      by_cases hl : l = ""
      · subst hl
        simp [weatherEndpoint, WeatherResp.isErr]
      · cases key with
        | none => simp [weatherEndpoint, WeatherResp.isErr, hl]
        | some k =>
          cases up with
          | ok d => simp [weatherEndpoint, WeatherResp.isErr, hl]
          | httpErr st msg =>
            by_cases h4 : st = 401
            · subst h4
              simp [weatherEndpoint, WeatherResp.isErr, hl]
            · simp [weatherEndpoint, WeatherResp.isErr, hl, h4]
          | netFail => simp [weatherEndpoint, WeatherResp.isErr, hl]
  · rintro ⟨hn, he⟩ hcase
    cases loc with
    | none => exact absurd rfl hn
    | some l =>
      have hl : l ≠ "" := fun h => he (by rw [h])
      rcases hcase with hk | hu | ⟨m, hm⟩
      · subst hk
        simp [weatherEndpoint, hl, WeatherResp.demoFlag, WeatherResp.reason]
      · subst hu
        cases key with
        | none => simp [weatherEndpoint, hl, WeatherResp.demoFlag, WeatherResp.reason]
        | some k => simp [weatherEndpoint, hl, WeatherResp.demoFlag, WeatherResp.reason]
      · subst hm
        cases key with
        | none => simp [weatherEndpoint, hl, WeatherResp.demoFlag, WeatherResp.reason]
        | some k => simp [weatherEndpoint, hl, WeatherResp.demoFlag, WeatherResp.reason]

/-- Witness for C9: a missing location errs; a missing credential with a
network failure degrades to a demo response with a reason. -/
theorem c9_error_taxonomy_witness :
    (weatherEndpoint none (some "k") (.ok owm0) jitter0).isErr = true ∧
    (weatherEndpoint (some "Paris") none .netFail jitter0).demoFlag = some true ∧
    (weatherEndpoint (some "Paris") none .netFail jitter0).reason ≠ none := by
  refine ⟨?_, ?_⟩
  · exact (c9_error_taxonomy none (some "k") (.ok owm0) jitter0).1.mpr (Or.inl rfl)
  · exact (c9_error_taxonomy (some "Paris") none .netFail jitter0).2
      ⟨by simp, by simp⟩ (Or.inl rfl)

/-- C10: after any jitter at all (a superset of the coded random ranges),
the synthesized weather keeps humidity within [30, 100] and wind speed at
least 0.5 m/s, for table cities and hash-seeded cities alike. -/
theorem c10_mock_bounds : ∀ (loc : String) (j : Jitter),
    30 ≤ (generateMockWeather loc j).humidity ∧
    (generateMockWeather loc j).humidity ≤ 100 ∧
    (1/2 : Rat) ≤ (generateMockWeather loc j).windSpeed := by
  intro loc j
  unfold generateMockWeather
  refine ⟨le_max_left _ _, max_le (by norm_num) (min_le_left _ _), le_max_left _ _⟩

/-! ### Claims C4-C5: the polling loop -/

/-- C4, counterexample: the claim says any status other than `generating`
(including `success` without an image URL, and `unknown`) stops the loop.
It does not: both such responses fall into the still-generating branch,
and the loop polls a second time (2 polls, one delay). -/
theorem c4_counterexample :
    pollLoop 120 0 [⟨"success", none, none⟩,
        ⟨"success", some "https://img.example/outfit.png", none⟩] =
      (.success "https://img.example/outfit.png", 2, pollDelayMs) ∧
    pollLoop 120 0 [⟨"unknown", none, none⟩,
        ⟨"success", some "https://img.example/outfit.png", none⟩] =
      (.success "https://img.example/outfit.png", 2, pollDelayMs) ∧
    ("success" ≠ "generating" ∧ "unknown" ≠ "generating") :=
  ⟨rfl, rfl, by decide⟩

/-- C4, amended: the loop's terminal statuses are exactly `success` with
a truthy image URL and `create_failed`/`generation_failed`; on those the
loop performs that one poll, its result is independent of the remaining
responses (the job is never touched again), and every other status -
`generating`, `unknown`, `success` without a URL - schedules exactly one
more poll after the fixed delay. -/
theorem c4_amended : ∀ (max att : Nat) (r : StatusResponse) (rest : List StatusResponse),
    att < max →
    ((r.status = "success" ∧ jsTruthyOpt r.imageUrl = true →
        pollLoop max att (r :: rest) = (.success (r.imageUrl.getD ""), 1, 0)) ∧
     (r.status = "create_failed" ∨ r.status = "generation_failed" →
        pollLoop max att (r :: rest) =
          (.failed (match r.error with
                    | some e => if e = "" then "Generation failed" else e
                    | none => "Generation failed"), 1, 0)) ∧
     (¬(r.status = "success" ∧ jsTruthyOpt r.imageUrl = true) →
      ¬(r.status = "create_failed" ∨ r.status = "generation_failed") →
        pollLoop max att (r :: rest) =
          ((pollLoop max (att + 1) rest).1,
           (pollLoop max (att + 1) rest).2.1 + 1,
           (pollLoop max (att + 1) rest).2.2 + pollDelayMs))) := by
  intro max att r rest h
  have hna : ¬ max ≤ att := by omega
  refine ⟨fun hc => ?_, fun hc => ?_, fun h1 h2 => ?_⟩
  · rw [pollLoop, if_neg hna]
    simp only [if_pos hc]
  · have hns : ¬(r.status = "success" ∧ jsTruthyOpt r.imageUrl = true) := by
      rcases hc with h' | h' <;> simp [h']
    rw [pollLoop, if_neg hna]
    simp only [if_neg hns, if_pos hc]
  · rw [pollLoop, if_neg hna]
    simp only [if_neg h1, if_neg h2]

/-- Witness for the amended C4 at both terminal statuses. -/
theorem c4_amended_witness :
    pollLoop 120 0 [⟨"success", some "https://img.example/outfit.png", none⟩,
        ⟨"generating", none, none⟩] =
      (.success "https://img.example/outfit.png", 1, 0) ∧
    pollLoop 120 0 [⟨"generation_failed", none, some "boom"⟩,
        ⟨"generating", none, none⟩] =
      (.failed "boom", 1, 0) := by
  have h1 := c4_amended 120 0 ⟨"success", some "https://img.example/outfit.png", none⟩
    [⟨"generating", none, none⟩] (by omega)
  have h2 := c4_amended 120 0 ⟨"generation_failed", none, some "boom"⟩
    [⟨"generating", none, none⟩] (by omega)
  exact ⟨h1.1 (by decide), h2.2.1 (Or.inr rfl)⟩

/-- C5: three `generating` responses then `success` with a URL reach
Success after exactly 4 polls with 3 five-second delays between them;
120 `generating` responses reach the timeout with exactly 120 polls. -/
theorem c5_poll_counts :
    pollLoop 120 0 (List.replicate 3 (⟨"generating", none, none⟩ : StatusResponse) ++
        [⟨"success", some "https://img.example/outfit.png", none⟩]) =
      (.success "https://img.example/outfit.png", 4, 3 * pollDelayMs) ∧
    pollLoop 120 0 (List.replicate 120 (⟨"generating", none, none⟩ : StatusResponse)) =
      (.timedOut, 120, 120 * pollDelayMs) :=
  ⟨rfl, rfl⟩

/-! ### Claim C8: the image cache fallback -/

/-- An exact cache hit is returned unchanged. -/
theorem cacheFallback_exact_hit :
    ∀ q url, lookupA q imageCache = some url → unsplashCacheFallback q = url := by
  intro q url h
  simp only [unsplashCacheFallback, h]

/-- The cache path always yields a cache entry's URL or the generic one. -/
theorem cacheFallback_total :
    ∀ q : String, unsplashCacheFallback q ∈ imageCache.map Prod.snd ∨
      unsplashCacheFallback q = genericFallbackUrl := by
  intro q
  unfold unsplashCacheFallback
  cases hl : lookupA q imageCache with
  | some u => exact Or.inl (lookupA_mem q imageCache u hl)
  | none =>
    dsimp only
    split
    · exact Or.inr rfl
    next best tail hS =>
      by_cases h2 : 2 ≤ best.2
      · rw [if_pos h2]
        cases hlk : lookupA best.1 imageCache with
        | some u => exact Or.inl (by simpa [hlk] using lookupA_mem best.1 imageCache u hlk)
        | none => exact Or.inr (by simp [hlk])
      · rw [if_neg h2]
        exact Or.inr rfl

/-- The example query has no exact cache hit. -/
theorem denim_no_exact_hit : lookupA "blue denim jacket" imageCache = none := rfl

set_option maxHeartbeats 4000000

/-- Full evaluation of the fuzzy path on the example query: it resolves
to the URL cached under "blue denim jacket classic". -/
theorem denim_fuzzy_eval : unsplashCacheFallback "blue denim jacket" =
    "https://images.unsplash.com/photo-1580644228275-2b826dbec5bf?crop=entropy&cs=tinysrgb&fit=max&fm=jpg&ixid=M3w3Nzg4Nzd8MHwxfHNlYXJjaHwxfHxibHVlJTIwZGVuaW0lMjBqYWNrZXR8ZW58MXx8fHwxNzYyNzkzNTQxfDA&ixlib=rb-4.1.0&q=80&w=1080" := rfl

set_option maxHeartbeats 200000

/-- The URL above is exactly the "blue denim jacket classic" entry. -/
theorem denim_classic_entry : lookupA "blue denim jacket classic" imageCache =
    some
      "https://images.unsplash.com/photo-1580644228275-2b826dbec5bf?crop=entropy&cs=tinysrgb&fit=max&fm=jpg&ixid=M3w3Nzg4Nzd8MHwxfHNlYXJjaHwxfHxibHVlJTIwZGVuaW0lMjBqYWNrZXR8ZW58MXx8fHwxNzYyNzkzNTQxfDA&ixlib=rb-4.1.0&q=80&w=1080" := rfl

/-- C8: the cache path never fails: an exact cache hit is returned as is;
otherwise the result is always either some cache entry's URL (the
best-scoring fuzzy match when its score reaches 2) or the hard-coded
generic fallback. The query "blue denim jacket" has no exact hit and
fuzzily resolves to the cached "blue denim jacket classic" entry, which
is not the generic fallback. -/
theorem c8_cache_never_fails :
    (∀ q url, lookupA q imageCache = some url → unsplashCacheFallback q = url) ∧
    (∀ q : String, unsplashCacheFallback q ∈ imageCache.map Prod.snd ∨
       unsplashCacheFallback q = genericFallbackUrl) ∧
    lookupA "blue denim jacket" imageCache = none ∧
    unsplashCacheFallback "blue denim jacket" =
      "https://images.unsplash.com/photo-1580644228275-2b826dbec5bf?crop=entropy&cs=tinysrgb&fit=max&fm=jpg&ixid=M3w3Nzg4Nzd8MHwxfHNlYXJjaHwxfHxibHVlJTIwZGVuaW0lMjBqYWNrZXR8ZW58MXx8fHwxNzYyNzkzNTQxfDA&ixlib=rb-4.1.0&q=80&w=1080" ∧
    lookupA "blue denim jacket classic" imageCache =
      some
        "https://images.unsplash.com/photo-1580644228275-2b826dbec5bf?crop=entropy&cs=tinysrgb&fit=max&fm=jpg&ixid=M3w3Nzg4Nzd8MHwxfHNlYXJjaHwxfHxibHVlJTIwZGVuaW0lMjBqYWNrZXR8ZW58MXx8fHwxNzYyNzkzNTQxfDA&ixlib=rb-4.1.0&q=80&w=1080" ∧
    ("https://images.unsplash.com/photo-1580644228275-2b826dbec5bf?crop=entropy&cs=tinysrgb&fit=max&fm=jpg&ixid=M3w3Nzg4Nzd8MHwxfHNlYXJjaHwxfHxibHVlJTIwZGVuaW0lMjBqYWNrZXR8ZW58MXx8fHwxNzYyNzkzNTQxfDA&ixlib=rb-4.1.0&q=80&w=1080" : String) ≠
      genericFallbackUrl :=
  ⟨cacheFallback_exact_hit, cacheFallback_total, denim_no_exact_hit,
   denim_fuzzy_eval, denim_classic_entry, by decide⟩

/-- Witness for C8's exact-hit conjunct at the key "umbrella rain". -/
theorem c8_cache_never_fails_witness :
    unsplashCacheFallback "umbrella rain" =
      "https://images.unsplash.com/photo-1757548710136-66a371811d1c?crop=entropy&cs=tinysrgb&fit=max&fm=jpg&ixid=M3w3Nzg4Nzd8MHwxfHNlYXJjaHwxfHxibGFjayUyMHVtYnJlbGxhJTIwcmFpbnxlbnwxfHx8fDE3NjI4ODg5OTd8MA&ixlib=rb-4.1.0&q=80&w=1080" :=
  c8_cache_never_fails.1 "umbrella rain"
    "https://images.unsplash.com/photo-1757548710136-66a371811d1c?crop=entropy&cs=tinysrgb&fit=max&fm=jpg&ixid=M3w3Nzg4Nzd8MHwxfHNlYXJjaHwxfHxibGFjayUyMHVtYnJlbGxhJTIwcmFpbnxlbnwxfHx8fDE3NjI4ODg5OTd8MA&ixlib=rb-4.1.0&q=80&w=1080" rfl

end WSA
